import Mathlib

/-!
Verification of the news-publishing application's approval workflow,
subscriber fan-out and email read-tracking pipeline.

The definitions below are a shallow embedding of the Python source:

* `news_app/editor_permissions.py` — `is_editor_or_in_editor_group`,
  `check_article_edit_permission`;
* `news_app/editor_views.py` — `approve_article`, `reject_article`,
  `bulk_article_action`;
* `news_app/models.py` — `Notification.save`, `Notification.mark_as_read`,
  `Article.get_subscribers_by_type`;
* `news_app/signals.py` — `_send_article_emails_sync`;
* `news_app/email_tracking.py` — `_is_rate_limited`, `track_email_open`,
  `_return_tracking_pixel`, `mark_notification_read`;
* `news_app/urls.py` — the URL routing for the tracking endpoints.

Machine-level details that the claims do not touch (template rendering,
logging, ORM plumbing) are elided; timestamps are modelled as natural
numbers, database tables as lists, and the shared cache as explicit state.
-/

namespace NewsApp

/-- A user of the application, with the fields consulted by the permission
checks and by audience computation.  `email = none` models a NULL email
column; `some ""` models a blank (empty-string) email. -/
structure User where
  uid : Nat
  role : String
  isAuthenticated : Bool
  isStaff : Bool
  isSuperuser : Bool
  inEditorGroup : Bool
  hasApproveArticlePerm : Bool
  email : Option String
deriving DecidableEq, Repr

/-- An article's approval-relevant state (`news_app/models.py`, `Article`).
Foreign keys are modelled by ids; timestamps by `Option Nat` where `none`
is the NULL / unset value. -/
structure Article where
  aid : Nat
  authorId : Nat
  status : String
  is_approved : Bool
  approvedById : Option Nat
  approvedAt : Option Nat
  publishedAt : Option Nat
deriving DecidableEq, Repr

/-- Embeds `is_editor_or_in_editor_group` from
`news_app/editor_permissions.py`: editor role, membership in the Editor
group, the `news_app.approve_article` permission, or the staff/superuser
fallback, all gated on authentication. -/
def is_editor_or_in_editor_group (u : User) : Bool :=
  if !u.isAuthenticated then false
  else if u.role = "editor" then true
  else if u.inEditorGroup then true
  else if u.hasApproveArticlePerm then true
  else if u.isSuperuser || u.isStaff then true
  else false

/-- Embeds `check_article_edit_permission(user, article)` from
`news_app/editor_permissions.py`.  Returns the `(has_permission, reason)`
pair.  The author check runs before every capability check, so an author
can never approve their own article. -/
def check_article_edit_permission (u : User) (a : Article) : Bool × String :=
  if !u.isAuthenticated then (false, "User not authenticated")
  else if a.authorId = u.uid then
    (false, "Authors cannot approve their own articles")
  else if is_editor_or_in_editor_group u then
    (true, "User has editor permissions")
  else if u.isStaff || u.isSuperuser then
    (true, "User has staff/admin permissions")
  else (false, "User lacks editor permissions")

/-- Outcome of a single-article editor action in `news_app/editor_views.py`:
the permission-failure redirect (with its message reason), the benign
"already approved" redirect, or the success path. -/
inductive EditorActionResult where
  | forbidden (reason : String)
  | alreadyApproved
  | ok
deriving DecidableEq, Repr

/-- True exactly on the permission-failure outcome. -/
def EditorActionResult.isForbidden : EditorActionResult → Bool
  | .forbidden _ => true
  | _ => false

/-- Embeds the `approve_article` view from `news_app/editor_views.py`
(lines 199–240): re-check permission, return early if already approved,
otherwise set `is_approved`, `status`, `approved_by`, `approved_at`, and
set `published_at` only when it was unset.  Returns the outcome together
with the resulting article row. -/
def approve_article (u : User) (a : Article) (now : Nat) :
    EditorActionResult × Article :=
  let chk := check_article_edit_permission u a
  if !chk.1 then (.forbidden chk.2, a)
  else if a.is_approved then (.alreadyApproved, a)
  else
    (.ok,
      { a with
        is_approved := true
        status := "approved"
        approvedById := some u.uid
        approvedAt := some now
        publishedAt :=
          match a.publishedAt with
          | none => some now
          | some t => some t })

/-- Embeds the `reject_article` view from `news_app/editor_views.py`
(lines 243–284): permission check, then set `is_approved := false`,
`status := "rejected"`, record the decider and the decision timestamp.
The rejection reason is collected but not persisted on the article. -/
def reject_article (u : User) (a : Article) (now : Nat) :
    EditorActionResult × Article :=
  let chk := check_article_edit_permission u a
  if !chk.1 then (.forbidden chk.2, a)
  else
    (.ok,
      { a with
        is_approved := false
        status := "rejected"
        approvedById := some u.uid
        approvedAt := some now })

/-- Embeds the per-article body of the loop in `bulk_article_action`
(`news_app/editor_views.py`, lines 309–351).  Returns the resulting row
and whether the iteration incremented `success_count` resp.
`error_count`.  An already-approved article under `approve` (and a
non-approved, non-pending article under `reject`, and an unknown action)
increments neither counter. -/
def processBulkArticle (u : User) (action : String) (now : Nat)
    (a : Article) : Article × Bool × Bool :=
  let chk := check_article_edit_permission u a
  if !chk.1 then (a, false, true)
  else if action = "approve" then
    if !a.is_approved then
      ({ a with
          is_approved := true
          status := "approved"
          approvedById := some u.uid
          approvedAt := some now
          publishedAt :=
            match a.publishedAt with
            | none => some now
            | some t => some t },
        true, false)
    else (a, false, false)
  else if action = "reject" then
    if a.is_approved || a.status = "pending" then
      ({ a with
          is_approved := false
          status := "rejected"
          approvedById := some u.uid
          approvedAt := some now },
        true, false)
    else (a, false, false)
  else if action = "mark_pending" then
    ({ a with
        is_approved := false
        status := "pending"
        approvedById := none
        approvedAt := none },
      true, false)
  else (a, false, false)

/-- Embeds the `bulk_article_action` view from `news_app/editor_views.py`
(lines 287–367): every selected article is processed independently (each
iteration runs in its own transaction), and the aggregate success and
error counts are reported.  Returns (processed rows, success_count,
error_count). -/
def bulk_article_action (u : User) (action : String) (now : Nat)
    (arts : List Article) : List Article × Nat × Nat :=
  let processed := arts.map (processBulkArticle u action now)
  (processed.map (·.1),
   (processed.filter (·.2.1)).length,
   (processed.filter (·.2.2)).length)

/-- A notification row (`news_app/models.py`, `Notification`).  The
`read_token` column is a string that is blank (`""`) until the first save
generates it. -/
structure Notification where
  nid : Nat
  recipientId : Nat
  articleId : Option Nat
  notification_type : String
  message : String
  is_read : Bool
  email_opened_at : Option Nat
  read_token : String
deriving DecidableEq, Repr

/-- Embeds `Notification.save` (`news_app/models.py`, lines 363–368): if no
read token exists yet, a freshly generated uuid4 hex string — supplied
here as the `fresh` argument, since uuid generation is nondeterministic —
is stored; otherwise the row is persisted unchanged. -/
def Notification.save (fresh : String) (n : Notification) : Notification :=
  if n.read_token = "" then { n with read_token := fresh } else n

/-- Embeds `Notification.mark_as_read` (`news_app/models.py`, lines
370–376): when the row is unread, set `is_read`, record the timestamp and
save; when already read, do nothing at all. -/
def Notification.mark_as_read (now : Nat) (fresh : String)
    (n : Notification) : Notification :=
  if !n.is_read then
    Notification.save fresh { n with is_read := true, email_opened_at := some now }
  else n

/-- The read tokens present in a notification table. -/
def tokensOf (store : List Notification) : List String :=
  store.map (·.read_token)

/-- Inserting a new notification row: the model's `save` generates the
token, then the row joins the table. -/
def insertNotification (fresh : String) (store : List Notification)
    (n : Notification) : List Notification :=
  store ++ [Notification.save fresh n]

/-! ## Read-tracking service (`news_app/email_tracking.py`) -/

/-- An HTTP response as far as the tracking claims observe it: status
code, body bytes, content type and the explicitly set headers. -/
structure HttpResponse where
  status : Nat
  body : List Nat
  contentType : String
  headers : List (String × String)
deriving DecidableEq, Repr

/-- The 43 bytes of the `TRANSPARENT_PIXEL` constant
(`news_app/email_tracking.py`, lines 26–31). -/
def TRANSPARENT_PIXEL : List Nat :=
  [0x47, 0x49, 0x46, 0x38, 0x39, 0x61, 0x01, 0x00, 0x01, 0x00, 0x80, 0x00,
   0x00, 0xff, 0xff, 0xff, 0x00, 0x00, 0x00, 0x21, 0xf9, 0x04, 0x01, 0x00,
   0x00, 0x00, 0x00, 0x2c, 0x00, 0x00, 0x00, 0x00, 0x01, 0x00, 0x01, 0x00,
   0x00, 0x02, 0x02, 0x04, 0x01, 0x00, 0x3b]

/-- Embeds `_return_tracking_pixel` (`news_app/email_tracking.py`, lines
153–167): always a 200 `image/gif` response with fixed no-cache, robots
and CORS headers. -/
def trackingPixel : HttpResponse :=
  { status := 200
    body := TRANSPARENT_PIXEL
    contentType := "image/gif"
    headers :=
      [("Cache-Control", "no-cache, no-store, must-revalidate"),
       ("Pragma", "no-cache"),
       ("Expires", "0"),
       ("X-Robots-Tag", "noindex, nofollow, noarchive, nosnippet"),
       ("Access-Control-Allow-Origin", "*"),
       ("Access-Control-Allow-Methods", "GET")] }

/-- The mutable state consulted by `track_email_open` for one fixed
(token, client-IP) pair, within one rate-limit window: the rate-limit
counter for that key, the `email_track:<token>` cache entry, and the
notification row whose `read_token` equals the token (`none` when the
token matches no row). -/
structure TrackState where
  rateCount : Nat
  trackCache : Option String
  notif : Option Notification
deriving DecidableEq, Repr

/-- Embeds `track_email_open` (`news_app/email_tracking.py`, lines
57–150) together with `_is_rate_limited` (lines 43–54), for requests of
one token from one client IP inside a single one-minute window (so no
cache entry expires).  At 10 or more prior requests the work is skipped
silently; otherwise the counter is bumped, the cache is consulted, an
unknown token is negatively cached, and an unread notification is marked
read and positively cached.  Every branch answers with the same pixel. -/
def track_email_open (now : Nat) (fresh : String) (s : TrackState) :
    HttpResponse × TrackState :=
  if 10 ≤ s.rateCount then (trackingPixel, s)
  else
    let s1 : TrackState := { s with rateCount := s.rateCount + 1 }
    match s1.trackCache with
    | some _ => (trackingPixel, s1)
    | none =>
      match s1.notif with
      | none => (trackingPixel, { s1 with trackCache := some "invalid" })
      | some n =>
        if !n.is_read then
          (trackingPixel,
            { s1 with
              notif := some (Notification.mark_as_read now fresh n)
              trackCache := some "tracked" })
        else (trackingPixel, s1)

/-- Iterated tracking requests: the state after `k` successive calls of
`track_email_open` with the same token and client IP. -/
def trackN (now : Nat) (fresh : String) : Nat → TrackState → TrackState
  | 0, s => s
  | k + 1, s => (track_email_open now fresh (trackN now fresh k s)).2

/-- The state consulted by the explicit mark-read endpoint for one client
IP within one rate-limit window: the per-IP `mark_read` counter and the
notification table. -/
structure MarkReadState where
  rateCount : Nat
  db : List Notification
deriving DecidableEq, Repr

/-- Embeds the `mark_notification_read` view (`news_app/email_tracking.py`,
lines 170–280): reject a non-positive id with 400, a rate-limited client
(20 or more prior requests this minute) with 429, an unknown id with 404;
otherwise answer 200, marking the row read only when it was unread.
Returns the HTTP status together with the new state. -/
def mark_notification_read (now : Nat) (fresh : String) (nid : Int)
    (s : MarkReadState) : Nat × MarkReadState :=
  if nid ≤ 0 then (400, s)
  else if 20 ≤ s.rateCount then (429, s)
  else
    let s1 : MarkReadState := { s with rateCount := s.rateCount + 1 }
    match s1.db.find? (fun n => n.nid = nid.toNat) with
    | none => (404, s1)
    | some n =>
      if n.is_read then (200, s1)
      else
        (200,
          { s1 with
            db := s1.db.map (fun m =>
              if m.nid = nid.toNat then
                Notification.mark_as_read now fresh m
              else m) })

/-- Numeric value of a decimal digit character. -/
def digitVal (c : Char) : Nat := c.toNat - 48

/-- Django's `int` path converter: its regex `[0-9]+` matches exactly the
nonempty all-digit segments, which are read as decimal numbers. -/
def intPathConverter (sseg : String) : Option Nat :=
  if sseg.data ≠ [] && sseg.data.all (fun c => c.isDigit) then
    some (sseg.data.foldl (fun acc c => acc * 10 + digitVal c) 0)
  else none

/-- Embeds the routing of the mark-read URL
(`news_app/urls.py`, lines 73–77: `mark-read/<int:notification_id>/`)
composed with the view: an id segment the `int` converter rejects — a
negative number, a non-numeric string — fails URL resolution and the
server answers 404 without ever invoking the view. -/
def markReadEndpoint (now : Nat) (fresh : String) (idSeg : String)
    (s : MarkReadState) : Nat × MarkReadState :=
  match intPathConverter idSeg with
  | none => (404, s)
  | some k => mark_notification_read now fresh (k : Int) s

/-! ## Audience computation and email fan-out
(`news_app/models.py`, `news_app/signals.py`) -/

/-- Deduplicate a user list by primary key, keeping first occurrences.
This determinizes the Python `set()` union in `get_subscribers_by_type`
(model instances hash by pk); the set's iteration order is arbitrary, but
every property proved below is order-independent. -/
def dedupByUid (l : List User) : List User :=
  l.foldl (fun acc u =>
    if acc.any (fun v => v.uid = u.uid) then acc else acc ++ [u]) []

/-- Truthiness of `subscriber.email` in Python: a NULL or empty-string
email is falsy. -/
def emailTruthy (u : User) : Bool :=
  match u.email with
  | some s => s ≠ ""
  | none => false

/-- The result dict of `Article.get_subscribers_by_type`
(`news_app/models.py`, lines 533–570). -/
structure SubscribersByType where
  publisher : List User
  journalist : List User
  all : List User
deriving DecidableEq, Repr

/-- Embeds `Article.get_subscribers_by_type`.  `hasPublisher` tells
whether the article has a publisher; `publisherSubscribers` and
`journalistSubscribers` stand for the ORM rows behind
`article.publisher.subscribers` and
`article.author.journalist_subscribers`.  Both querysets are filtered
with `email__isnull=False`, and `all` is their deduplicated union. -/
def get_subscribers_by_type (hasPublisher : Bool)
    (publisherSubscribers journalistSubscribers : List User) :
    SubscribersByType :=
  let pub := if hasPublisher then
      publisherSubscribers.filter (fun u => u.email.isSome)
    else []
  let jour := journalistSubscribers.filter (fun u => u.email.isSome)
  { publisher := pub, journalist := jour, all := dedupByUid (pub ++ jour) }

/-- Observable outcome of one run of `_send_article_emails_sync`
(`news_app/signals.py`, lines 57–529), keyed by recipient user id:

* `notifRecipients` — one entry per `Notification` row created;
* `htmlRecipients` — one entry per `EmailMultiAlternatives(...).send()`;
* `massRecipients` — one entry per tuple handed to `send_mass_mail`;
* `crashed` — true when the block after the journalist loop raises
  `NameError` because no loop iteration defined its variables (in that
  case `send_mass_mail` is never reached). -/
structure SendOutcome where
  notifRecipients : List Nat
  htmlRecipients : List Nat
  massRecipients : List Nat
  crashed : Bool
deriving DecidableEq, Repr

/-- Embeds `_send_article_emails_sync` (`news_app/signals.py`, lines
57–529), faithfully including its control flow:

* the publisher loop (lines 79–291) runs per publisher subscriber with a
  truthy email: it creates one notification row and sends one individual
  HTML email, and also appends one plain-text tuple to the
  `send_mass_mail` batch;
* the journalist loop (lines 294–334) creates one notification row per
  journalist subscriber with a truthy email who is not also a publisher
  subscriber — but the message construction and sending code that
  textually follows it (lines 337–509) sits at function level, outside
  the loop, so it executes once, after both loops, using the last values
  the loop variables took: one more HTML email and one more mass-mail
  tuple go to the final element of the journalist queryset (or, when the
  article has no journalist subscribers, to the final publisher
  subscriber — a duplicate);
* when neither loop completed an iteration past its guards the trailing
  block raises `NameError` on its dangling variables and the mass-mail
  batch is never sent. -/
def sendArticleEmailsSync (hasPublisher : Bool)
    (pubSubs jourSubs : List User) : SendOutcome :=
  let sbt := get_subscribers_by_type hasPublisher pubSubs jourSubs
  if sbt.all.isEmpty then ⟨[], [], [], false⟩
  else
    let pubProcessed := sbt.publisher.filter emailTruthy
    let jourKept := sbt.journalist.filter (fun u =>
      emailTruthy u && !(sbt.publisher.any (fun v => v.uid = u.uid)))
    let notifs := pubProcessed.map (·.uid) ++ jourKept.map (·.uid)
    let htmlLoop := pubProcessed.map (·.uid)
    let massLoop := pubProcessed.map (·.uid)
    if pubProcessed.isEmpty && jourKept.isEmpty then
      ⟨notifs, htmlLoop, [], true⟩
    else
      let lastSub := if sbt.journalist.isEmpty then sbt.publisher.getLast?
        else sbt.journalist.getLast?
      let post := match lastSub with
        | some u => [u.uid]
        | none => []
      ⟨notifs, htmlLoop ++ post, massLoop ++ post, false⟩

/-- Number of emails the fan-out run delivers to the user with id `uid`
(individual HTML sends plus mass-mail messages). -/
def emailCountFor (o : SendOutcome) (uid : Nat) : Nat :=
  o.htmlRecipients.count uid + o.massRecipients.count uid

/-- Number of notification rows the fan-out run creates for the user with
id `uid`. -/
def notifCountFor (o : SendOutcome) (uid : Nat) : Nat :=
  o.notifRecipients.count uid

/-! ## Theorems -/

/-- C1: for every article with `is_approved = false` and every actor the
permission check allows to approve it, the approve view answers with the
success outcome and sets `status` to "approved", `is_approved` to true,
`approved_by` to the actor, `approved_at` to the current time, and sets
`published_at` to the current time exactly when it was previously unset
(keeping the earlier value otherwise). -/
theorem approve_article_success_effects (u : User) (a : Article) (now : Nat)
    (hperm : (check_article_edit_permission u a).1 = true)
    (hnot : a.is_approved = false) :
    approve_article u a now =
      (.ok,
        { a with
          is_approved := true
          status := "approved"
          approvedById := some u.uid
          approvedAt := some now
          publishedAt :=
            match a.publishedAt with
            | none => some now
            | some t => some t }) := by
  simp [approve_article, hperm, hnot]

/-- Witness for C1: a concrete editor approving a concrete pending draft
written by someone else. -/
theorem approve_article_success_effects_witness :
    approve_article
      ⟨10, "editor", true, false, false, false, false, some "e@example.com"⟩
      ⟨1, 2, "draft", false, none, none, none⟩ 5 =
      (.ok, ⟨1, 2, "approved", true, some 10, some 5, some 5⟩) :=
  approve_article_success_effects
    ⟨10, "editor", true, false, false, false, false, some "e@example.com"⟩
    ⟨1, 2, "draft", false, none, none, none⟩ 5 (by decide) (by decide)

/-- C2: whenever the actor is the article's author — no matter what
editor, staff or superuser flags the actor carries — the approve view
answers with the permission-failure outcome and leaves the article row,
hence all its approval fields, completely unchanged. -/
theorem approve_article_self_forbidden (u : User) (a : Article) (now : Nat)
    (h : a.authorId = u.uid) :
    (approve_article u a now).1.isForbidden = true ∧
    (approve_article u a now).2 = a := by
  cases hu : u.isAuthenticated <;>
    simp [approve_article, check_article_edit_permission, h, hu,
      EditorActionResult.isForbidden]

/-- Witness for C2: an author who is simultaneously editor, staff,
superuser, Editor-group member and holder of the approve permission still
cannot approve their own pending article, and the row is untouched. -/
theorem approve_article_self_forbidden_witness :
    (approve_article
      ⟨2, "editor", true, true, true, true, true, some "a@example.com"⟩
      ⟨1, 2, "pending", false, none, none, none⟩ 5).1.isForbidden = true ∧
    (approve_article
      ⟨2, "editor", true, true, true, true, true, some "a@example.com"⟩
      ⟨1, 2, "pending", false, none, none, none⟩ 5).2 =
      ⟨1, 2, "pending", false, none, none, none⟩ :=
  approve_article_self_forbidden
    ⟨2, "editor", true, true, true, true, true, some "a@example.com"⟩
    ⟨1, 2, "pending", false, none, none, none⟩ 5 (by decide)

/-- C4: a notification saved with a blank token receives the freshly
generated token; given that the generator's output is nonempty and does
not collide with any stored token (uuid4 hex strings are nonempty, and
the database's unique constraint rejects collisions), the table keeps
pairwise-distinct tokens after the insert; and once generated the token
survives every later save and every `mark_as_read`, whatever fresh values
those later saves are offered. -/
theorem read_token_unique_and_immutable (store : List Notification)
    (n : Notification) (fresh : String)
    (hne : fresh ≠ "") (hnew : fresh ∉ tokensOf store)
    (habsent : n.read_token = "") (hdist : (tokensOf store).Nodup) :
    (Notification.save fresh n).read_token = fresh ∧
    (tokensOf (insertNotification fresh store n)).Nodup ∧
    (∀ g, Notification.save g (Notification.save fresh n) =
      Notification.save fresh n) ∧
    (∀ t g, (Notification.mark_as_read t g
      (Notification.save fresh n)).read_token = fresh) := by
  have hsave : Notification.save fresh n = { n with read_token := fresh } := by
    simp [Notification.save, habsent]
  refine ⟨by simp [hsave], ?_, ?_, ?_⟩
  · simp only [insertNotification, tokensOf, hsave, List.map_append,
      List.map_cons, List.map_nil]
    rw [List.nodup_append]
    refine ⟨hdist, List.nodup_singleton _, ?_⟩
    intro x hx hx1
    simp only [List.mem_singleton] at hx1
    exact hnew (hx1 ▸ hx)
  · intro g
    rw [hsave]
    simp [Notification.save, hne]
  · intro t g
    rw [hsave]
    cases hr : n.is_read <;>
      simp [Notification.mark_as_read, Notification.save, hne, hr]

/-- Witness for C4: inserting a fresh notification into a one-row table
whose sole token differs from the generated one. -/
theorem read_token_unique_and_immutable_witness :
    (Notification.save "b7f2" ⟨2, 9, none, "general", "", false, none,
      ""⟩).read_token = "b7f2" ∧
    (tokensOf (insertNotification "b7f2"
      [⟨1, 7, none, "general", "hi", false, none, "a1c3"⟩]
      ⟨2, 9, none, "general", "", false, none, ""⟩)).Nodup ∧
    (∀ g, Notification.save g (Notification.save "b7f2"
      ⟨2, 9, none, "general", "", false, none, ""⟩) =
      Notification.save "b7f2" ⟨2, 9, none, "general", "", false, none, ""⟩) ∧
    (∀ t g, (Notification.mark_as_read t g (Notification.save "b7f2"
      ⟨2, 9, none, "general", "", false, none, ""⟩)).read_token = "b7f2") :=
  read_token_unique_and_immutable
    [⟨1, 7, none, "general", "hi", false, none, "a1c3"⟩]
    ⟨2, 9, none, "general", "", false, none, ""⟩ "b7f2"
    (by decide) (by decide) (by decide) (by decide)

/-- C5: marking a notification as read twice is the same as marking it
once — the second call mutates nothing — the result is read, and when the
notification was previously unread its `email_opened_at` carries exactly
the first call's timestamp. -/
theorem mark_as_read_idempotent (n : Notification) (t1 t2 : Nat)
    (f1 f2 : String) :
    Notification.mark_as_read t2 f2 (Notification.mark_as_read t1 f1 n) =
      Notification.mark_as_read t1 f1 n ∧
    (Notification.mark_as_read t1 f1 n).is_read = true ∧
    (n.is_read = false →
      (Notification.mark_as_read t1 f1 n).email_opened_at = some t1) := by
  cases hr : n.is_read
  · by_cases htok : n.read_token = "" <;>
      simp [Notification.mark_as_read, Notification.save, hr, htok]
  · simp [Notification.mark_as_read, hr]

/-- Witness for C5: double-marking a concrete unread notification at
times 5 and 9 keeps `email_opened_at = some 5`. -/
theorem mark_as_read_idempotent_witness :
    Notification.mark_as_read 9 "g" (Notification.mark_as_read 5 "f"
      ⟨1, 7, some 3, "publisher", "m", false, none, "tok"⟩) =
      Notification.mark_as_read 5 "f"
        ⟨1, 7, some 3, "publisher", "m", false, none, "tok"⟩ ∧
    (Notification.mark_as_read 5 "f"
      ⟨1, 7, some 3, "publisher", "m", false, none, "tok"⟩).is_read = true ∧
    (Notification.mark_as_read 5 "f"
      ⟨1, 7, some 3, "publisher", "m", false, none, "tok"⟩).email_opened_at =
      some 5 :=
  ⟨(mark_as_read_idempotent _ 5 9 "f" "g").1,
   (mark_as_read_idempotent _ 5 9 "f" "g").2.1,
   (mark_as_read_idempotent
     ⟨1, 7, some 3, "publisher", "m", false, none, "tok"⟩ 5 9 "f" "g").2.2 rfl⟩

/-- Every branch of the tracking-pixel endpoint answers with the same
pixel response. -/
lemma track_email_open_fst (now : Nat) (fresh : String) (s : TrackState) :
    (track_email_open now fresh s).1 = trackingPixel := by
  obtain ⟨rc, tc, nf⟩ := s
  by_cases h : 10 ≤ rc
  · simp [track_email_open, h]
  · cases tc with
    | some v => simp [track_email_open, h]
    | none =>
      cases nf with
      | none => simp [track_email_open, h]
      | some n => cases hn : n.is_read <;> simp [track_email_open, h, hn]

/-- A rate-limited tracking request is a complete no-op apart from the
pixel: at 10 or more prior requests the handler answers before touching
the cache or the notification. -/
lemma track_email_open_limited (now : Nat) (fresh : String) (s : TrackState)
    (h : 10 ≤ s.rateCount) :
    track_email_open now fresh s = (trackingPixel, s) := by
  unfold track_email_open
  simp [h]

/-- One tracking request bumps the rate counter exactly when it is below
the cap, in every branch of the handler. -/
lemma track_email_open_rateCount (now : Nat) (fresh : String)
    (s : TrackState) :
    ((track_email_open now fresh s).2).rateCount =
      if 10 ≤ s.rateCount then s.rateCount else s.rateCount + 1 := by
  obtain ⟨rc, tc, nf⟩ := s
  by_cases h : 10 ≤ rc
  · simp [track_email_open, h]
  · cases tc with
    | some v => simp [track_email_open, h]
    | none =>
      cases nf with
      | none => simp [track_email_open, h]
      | some n => cases hn : n.is_read <;> simp [track_email_open, h, hn]

/-- Starting from an empty rate-limit window, the counter after `k`
tracking requests is `min k 10`. -/
lemma trackN_rateCount (now : Nat) (fresh : String) (s0 : TrackState)
    (h0 : s0.rateCount = 0) (k : Nat) :
    (trackN now fresh k s0).rateCount = min k 10 := by
  induction k with
  | zero => simpa [trackN] using h0
  | succ k ih =>
    rw [trackN, track_email_open_rateCount, ih]
    split <;> omega

/-- C6: the pixel endpoint is not a token oracle — for a token matching
no notification and a token of an already-read notification it produces
the identical externally observable response: the one fixed 200
`image/gif` pixel with the one fixed header set. -/
theorem track_open_no_token_oracle (now : Nat) (fresh : String)
    (s1 s2 : TrackState) (n : Notification)
    (_h1 : s1.notif = none) (_h2 : s2.notif = some n)
    (_h3 : n.is_read = true) :
    (track_email_open now fresh s1).1 = (track_email_open now fresh s2).1 ∧
    (track_email_open now fresh s1).1 = trackingPixel ∧
    trackingPixel.status = 200 ∧
    trackingPixel.contentType = "image/gif" := by
  refine ⟨?_, track_email_open_fst now fresh s1, rfl, rfl⟩
  rw [track_email_open_fst, track_email_open_fst]

/-- Witness for C6: an unknown token and a valid already-read token give
identical responses on concrete states. -/
theorem track_open_no_token_oracle_witness :
    (track_email_open 5 "f" ⟨0, none, none⟩).1 =
      (track_email_open 5 "f"
        ⟨0, none, some ⟨1, 7, some 3, "publisher", "m", true, some 2,
          "tok"⟩⟩).1 ∧
    (track_email_open 5 "f" ⟨0, none, none⟩).1 = trackingPixel ∧
    trackingPixel.status = 200 ∧
    trackingPixel.contentType = "image/gif" :=
  track_open_no_token_oracle 5 "f" ⟨0, none, none⟩
    ⟨0, none, some ⟨1, 7, some 3, "publisher", "m", true, some 2, "tok"⟩⟩
    ⟨1, 7, some 3, "publisher", "m", true, some 2, "tok"⟩ rfl rfl rfl

/-- C7: within one rate-limit window, after any 10 tracking requests for
one token from one client IP, every further request — the 11th, 12th, … —
returns the very same success-shaped pixel response while changing
nothing at all: not the notification, not the cache, not the counter.
The rate limit silently skips the mark-as-read work and never fails the
response. -/
theorem track_open_rate_limited_after_ten (now : Nat) (fresh : String)
    (s0 : TrackState) (k : Nat) (h0 : s0.rateCount = 0) (hk : 10 ≤ k) :
    track_email_open now fresh (trackN now fresh k s0) =
      (trackingPixel, trackN now fresh k s0) := by
  apply track_email_open_limited
  rw [trackN_rateCount now fresh s0 h0 k]
  omega

/-- Witness for C7: after 12 requests on a concrete fresh state holding
an unread notification, the 13th request is the identity apart from the
pixel. -/
theorem track_open_rate_limited_after_ten_witness :
    track_email_open 5 "f" (trackN 5 "f" 12
      ⟨0, none, some ⟨1, 7, some 3, "publisher", "m", false, none,
        "tok"⟩⟩) =
      (trackingPixel, trackN 5 "f" 12
        ⟨0, none, some ⟨1, 7, some 3, "publisher", "m", false, none,
          "tok"⟩⟩) :=
  track_open_rate_limited_after_ten 5 "f"
    ⟨0, none, some ⟨1, 7, some 3, "publisher", "m", false, none, "tok"⟩⟩
    12 rfl (by omega)

/-- Counterexample to C8 as stated: a mark-read request whose id segment
is `-1` never reaches the view, because Django's `int` path converter only matches
digit strings; URL resolution fails and the server answers 404 — not the
structured 400 the claim promises for the non-positive id `-1`. -/
theorem mark_read_neg_id_counterexample :
    (markReadEndpoint 0 "f" "-1" ⟨0, []⟩).1 = 404 ∧
    ¬(markReadEndpoint 0 "f" "-1" ⟨0, []⟩).1 = 400 := by
  constructor <;> decide

/-- C8 as amended: an id segment that is not a nonempty digit string
(malformed ids and negative ids such as `-1`) fails URL resolution and
yields 404 without reaching the view; the only non-positive id that
matches the route, `0`, yields the view's structured 400; a well-formed
positive id with no matching notification yields 404; a rate-limited
client (20 or more requests already counted this minute) yields 429; and
an existing notification yields 200 whether it was unread or already
read. -/
theorem mark_read_endpoint_statuses (now : Nat) (fresh : String)
    (idSeg : String) (s : MarkReadState) :
    (intPathConverter idSeg = none →
      markReadEndpoint now fresh idSeg s = (404, s)) ∧
    ((markReadEndpoint now fresh "0" s).1 = 400) ∧
    (∀ k, intPathConverter idSeg = some k → 0 < k → 20 ≤ s.rateCount →
      (markReadEndpoint now fresh idSeg s).1 = 429) ∧
    (∀ k, intPathConverter idSeg = some k → 0 < k → s.rateCount < 20 →
      s.db.find? (fun n => n.nid = k) = none →
      (markReadEndpoint now fresh idSeg s).1 = 404) ∧
    (∀ k n, intPathConverter idSeg = some k → 0 < k → s.rateCount < 20 →
      s.db.find? (fun n => n.nid = k) = some n →
      (markReadEndpoint now fresh idSeg s).1 = 200) := by
  refine ⟨?_, ?_, ?_, ?_, ?_⟩
  · intro h
    simp [markReadEndpoint, h]
  · have h0 : intPathConverter "0" = some 0 := by decide
    simp [markReadEndpoint, h0, mark_notification_read]
  · intro k hk hpos hrate
    have hk0 : ¬((k : Int) ≤ 0) := by exact_mod_cast Nat.not_le.mpr hpos
    simp [markReadEndpoint, hk, mark_notification_read, hk0, hrate]
  · intro k hk hpos hrate hfind
    have hk0 : ¬((k : Int) ≤ 0) := by exact_mod_cast Nat.not_le.mpr hpos
    simp [markReadEndpoint, hk, mark_notification_read, hk0,
      Nat.not_le.mpr hrate, Int.toNat_natCast, hfind]
  · intro k n hk hpos hrate hfind
    have hk0 : ¬((k : Int) ≤ 0) := by exact_mod_cast Nat.not_le.mpr hpos
    simp only [markReadEndpoint, hk, mark_notification_read, hk0, if_false,
      Int.toNat_natCast]
    rw [if_neg (by omega : ¬20 ≤ s.rateCount)]
    simp only [hfind]
    split <;> rfl

/-- Witness for C8 as amended, on a concrete table holding the single
unread notification with id 1: a malformed id and the nonexistent id 9999
yield 404, id 0 yields 400, a rate-limited request for id 1 yields 429,
and a fresh request for id 1 yields 200. -/
theorem mark_read_endpoint_statuses_witness :
    markReadEndpoint 5 "f" "abc"
      ⟨0, [⟨1, 7, some 3, "publisher", "m", false, none, "tok"⟩]⟩ =
      (404, ⟨0, [⟨1, 7, some 3, "publisher", "m", false, none, "tok"⟩]⟩) ∧
    (markReadEndpoint 5 "f" "0"
      ⟨0, [⟨1, 7, some 3, "publisher", "m", false, none, "tok"⟩]⟩).1 = 400 ∧
    (markReadEndpoint 5 "f" "1"
      ⟨25, [⟨1, 7, some 3, "publisher", "m", false, none, "tok"⟩]⟩).1 =
      429 ∧
    (markReadEndpoint 5 "f" "9999"
      ⟨0, [⟨1, 7, some 3, "publisher", "m", false, none, "tok"⟩]⟩).1 =
      404 ∧
    (markReadEndpoint 5 "f" "1"
      ⟨0, [⟨1, 7, some 3, "publisher", "m", false, none, "tok"⟩]⟩).1 =
      200 :=
  ⟨(mark_read_endpoint_statuses 5 "f" "abc"
      ⟨0, [⟨1, 7, some 3, "publisher", "m", false, none, "tok"⟩]⟩).1
      (by decide),
   (mark_read_endpoint_statuses 5 "f" "x"
      ⟨0, [⟨1, 7, some 3, "publisher", "m", false, none, "tok"⟩]⟩).2.1,
   (mark_read_endpoint_statuses 5 "f" "1"
      ⟨25, [⟨1, 7, some 3, "publisher", "m", false, none, "tok"⟩]⟩).2.2.1
      1 (by decide) (by decide) (by decide),
   (mark_read_endpoint_statuses 5 "f" "9999"
      ⟨0, [⟨1, 7, some 3, "publisher", "m", false, none, "tok"⟩]⟩).2.2.2.1
      9999 (by decide) (by decide) (by decide) (by decide),
   (mark_read_endpoint_statuses 5 "f" "1"
      ⟨0, [⟨1, 7, some 3, "publisher", "m", false, none, "tok"⟩]⟩).2.2.2.2
      1 ⟨1, 7, some 3, "publisher", "m", false, none, "tok"⟩ (by decide)
      (by decide) (by decide) (by decide)⟩

/-- C9: bulk approve over two articles, the first approvable by the actor
and the second authored by the actor, processes each independently: the
first is approved with the full field effect, the second is skipped
untouched and counted as a permission failure, and the view reports
exactly 1 success and 1 failure. -/
theorem bulk_approve_isolates_failures (E : User) (a1 a2 : Article)
    (now : Nat)
    (h1 : (check_article_edit_permission E a1).1 = true)
    (h2 : a1.is_approved = false)
    (h3 : a2.authorId = E.uid) :
    bulk_article_action E "approve" now [a1, a2] =
      ([{ a1 with
          is_approved := true
          status := "approved"
          approvedById := some E.uid
          approvedAt := some now
          publishedAt :=
            match a1.publishedAt with
            | none => some now
            | some t => some t },
        a2], 1, 1) := by
  have hperm2 : (check_article_edit_permission E a2).1 = false := by
    cases hu : E.isAuthenticated <;>
      simp [check_article_edit_permission, h3, hu]
  simp [bulk_article_action, processBulkArticle, h1, h2, hperm2]

/-- Witness for C9: a concrete editor bulk-approving one pending article
by another journalist together with one article of their own. -/
theorem bulk_approve_isolates_failures_witness :
    bulk_article_action
      ⟨10, "editor", true, false, false, false, false, some "e@example.com"⟩
      "approve" 5
      [⟨1, 2, "pending", false, none, none, none⟩,
       ⟨2, 10, "pending", false, none, none, none⟩] =
      ([⟨1, 2, "approved", true, some 10, some 5, some 5⟩,
        ⟨2, 10, "pending", false, none, none, none⟩], 1, 1) :=
  bulk_approve_isolates_failures
    ⟨10, "editor", true, false, false, false, false, some "e@example.com"⟩
    ⟨1, 2, "pending", false, none, none, none⟩
    ⟨2, 10, "pending", false, none, none, none⟩ 5
    (by decide) (by decide) (by decide)

/-- The redundant-state invariant of the data model: the boolean
`is_approved` agrees with `status = "approved"`. -/
def approvalStatusInv (a : Article) : Prop :=
  a.is_approved = true ↔ a.status = "approved"

/-- The per-article bulk step keeps `is_approved` and `status` in
agreement, whatever the action string. -/
lemma approvalStatusInv_processBulkArticle (u : User) (action : String)
    (now : Nat) (a : Article) (h : approvalStatusInv a) :
    approvalStatusInv (processBulkArticle u action now a).1 := by
  unfold processBulkArticle
  cases hchk : (check_article_edit_permission u a).1 with
  | false => simpa [hchk] using h
  | true =>
    by_cases hA : action = "approve"
    · cases hap : a.is_approved with
      | false => simp [hchk, hA, hap, approvalStatusInv]
      | true => simpa [hchk, hA, hap] using h
    · by_cases hR : action = "reject"
      · by_cases hcond : (a.is_approved || decide (a.status = "pending")) = true
        · simp [hchk, hA, hR, hcond, approvalStatusInv]
        · simpa [hchk, hA, hR, hcond] using h
      · by_cases hP : action = "mark_pending"
        · simp [hchk, hA, hR, hP, approvalStatusInv]
        · simpa [hchk, hA, hR, hP] using h

/-- C10: every editor transition — the approve view, the reject view, and
the per-article bulk step for any action (approve, reject, mark_pending
or anything else), hence every row produced by a bulk run — preserves the
invariant that `is_approved` holds exactly when `status` is
"approved". -/
theorem editor_transitions_preserve_approval_inv (u : User) (a : Article)
    (now : Nat) (action : String) (h : approvalStatusInv a) :
    approvalStatusInv (approve_article u a now).2 ∧
    approvalStatusInv (reject_article u a now).2 ∧
    approvalStatusInv (processBulkArticle u action now a).1 ∧
    (∀ arts : List Article, (∀ b ∈ arts, approvalStatusInv b) →
      ∀ b ∈ (bulk_article_action u action now arts).1,
        approvalStatusInv b) := by
  refine ⟨?_, ?_, approvalStatusInv_processBulkArticle u action now a h, ?_⟩
  · unfold approve_article
    cases hchk : (check_article_edit_permission u a).1 with
    | false => simpa [hchk] using h
    | true =>
      cases hap : a.is_approved with
      | true => simpa [hchk, hap] using h
      | false => simp [hchk, hap, approvalStatusInv]
  · unfold reject_article
    cases hchk : (check_article_edit_permission u a).1 with
    | false => simpa [hchk] using h
    | true => simp [hchk, approvalStatusInv]
  · intro arts hall b hb
    unfold bulk_article_action at hb
    simp only [List.map_map, List.mem_map, Function.comp] at hb
    obtain ⟨a', ha', rfl⟩ := hb
    exact approvalStatusInv_processBulkArticle u action now a' (hall a' ha')

/-- Witness for C10: the invariant holds after each transition applied to
a concrete pending article satisfying it. -/
theorem editor_transitions_preserve_approval_inv_witness :
    approvalStatusInv (approve_article
      ⟨10, "editor", true, false, false, false, false, some "e@example.com"⟩
      ⟨1, 2, "pending", false, none, none, none⟩ 5).2 ∧
    approvalStatusInv (reject_article
      ⟨10, "editor", true, false, false, false, false, some "e@example.com"⟩
      ⟨1, 2, "pending", false, none, none, none⟩ 5).2 ∧
    approvalStatusInv (processBulkArticle
      ⟨10, "editor", true, false, false, false, false, some "e@example.com"⟩
      "mark_pending" 5 ⟨1, 2, "pending", false, none, none, none⟩).1 ∧
    (∀ arts : List Article, (∀ b ∈ arts, approvalStatusInv b) →
      ∀ b ∈ (bulk_article_action
        ⟨10, "editor", true, false, false, false, false,
          some "e@example.com"⟩ "mark_pending" 5 arts).1,
        approvalStatusInv b) :=
  editor_transitions_preserve_approval_inv
    ⟨10, "editor", true, false, false, false, false, some "e@example.com"⟩
    ⟨1, 2, "pending", false, none, none, none⟩ 5 "mark_pending"
    (by simp [approvalStatusInv])

/-- C3 fails on the code: evaluating the fan-out at concrete audiences
shows the "exactly one email per audience member" part of the claim is
violated, while the notification-row part holds.  A sole publisher
subscriber (uid 1) receives four emails for one article — the in-loop
HTML send and mass-mail tuple, plus a second HTML send and second tuple
from the block after the journalist loop, which runs once at function
level on the loop variables' final values — yet gets exactly one
notification row.  With two journalist-only subscribers (uids 2 and 3),
the first receives no email at all (the send block sits outside the loop
and only handles the final subscriber, who gets two emails), though each
gets exactly one notification row. -/
theorem fanout_email_count_eval :
    (emailCountFor (sendArticleEmailsSync true
      [⟨1, "reader", true, false, false, false, false,
        some "r@example.com"⟩] []) 1 = 4 ∧
     notifCountFor (sendArticleEmailsSync true
      [⟨1, "reader", true, false, false, false, false,
        some "r@example.com"⟩] []) 1 = 1) ∧
    (emailCountFor (sendArticleEmailsSync true []
      [⟨2, "reader", true, false, false, false, false,
        some "v1@example.com"⟩,
       ⟨3, "reader", true, false, false, false, false,
        some "v2@example.com"⟩]) 2 = 0 ∧
     emailCountFor (sendArticleEmailsSync true []
      [⟨2, "reader", true, false, false, false, false,
        some "v1@example.com"⟩,
       ⟨3, "reader", true, false, false, false, false,
        some "v2@example.com"⟩]) 3 = 2 ∧
     notifCountFor (sendArticleEmailsSync true []
      [⟨2, "reader", true, false, false, false, false,
        some "v1@example.com"⟩,
       ⟨3, "reader", true, false, false, false, false,
        some "v2@example.com"⟩]) 2 = 1 ∧
     notifCountFor (sendArticleEmailsSync true []
      [⟨2, "reader", true, false, false, false, false,
        some "v1@example.com"⟩,
       ⟨3, "reader", true, false, false, false, false,
        some "v2@example.com"⟩]) 3 = 1) := by
  decide

end NewsApp
